import Mathlib

/-!
Verification of the backtest engine, trend-following strategy and parameter
optimizer of this repository (server/core/engine.py, server/core/strategy.py,
server/core/optimizer.py) against its natural-language specification.

The Python code is shallowly embedded: prices and monetary amounts are
rationals (ℚ), Python `int(x)` truncation is `pyInt`, dictionaries are
structures with `Option` fields where a key may be absent, and raised
exceptions are `Except` errors.
-/

namespace AiQuant

/-- Python `int(x)` applied to a real-valued quantity: truncation toward zero. -/
def pyInt (q : ℚ) : ℤ := if 0 ≤ q then ⌊q⌋ else -⌊-q⌋

/-- Strategy parameters of `TrendFollowingStrategy.params`
(server/core/strategy.py lines 11-20).  `contract_multiplier` is an integer
because `BacktestEngine.run` coerces it with `int(...)` before the strategy
sees it (engine.py lines 72-73). -/
structure StratParams where
  fast_period : ℤ
  slow_period : ℤ
  atr_period : ℤ
  atr_multiplier : ℚ
  risk_per_trade : ℚ
  contract_multiplier : ℤ
  use_expma : Bool
deriving Repr, DecidableEq

/-- The order intent a single `next` call hands to the broker:
nothing, `self.buy(size=..)`, `self.sell(size=..)`, or `self.close()`. -/
inductive OrderIntent where
  | none
  | buy (size : ℤ)
  | sell (size : ℤ)
  | close
deriving Repr, DecidableEq

/-- `max_affordable = int(available_cash / (price * self.params.contract_multiplier))`
(strategy.py line 252). -/
def maxAffordable (cash price : ℚ) (mult : ℤ) : ℤ :=
  pyInt (cash / (price * (mult : ℚ)))

/-- The risk-based size `int(risk_amount / risk_per_unit)` when
`risk_per_unit > 0`, else `0`, where `risk_amount = value * risk_per_trade`
(strategy.py lines 237-245 and 281-289). -/
def riskSize (value riskPerTrade riskPerUnit : ℚ) : ℤ :=
  if 0 < riskPerUnit then pyInt ((value * riskPerTrade) / riskPerUnit) else 0

/-- Long-entry sizing (strategy.py lines 237-264): risk-based size, then the
minimum-one fallback guarded by affordability, then the cap at
`max_affordable`. -/
def longEntrySize (p : StratParams) (close atr value cash : ℚ) : ℤ :=
  let stopDist := atr * p.atr_multiplier
  let riskPerUnit := stopDist * (p.contract_multiplier : ℚ)
  let size0 := riskSize value p.risk_per_trade riskPerUnit
  let maxAff := maxAffordable cash close p.contract_multiplier
  let size1 := if size0 = 0 then (if 1 ≤ maxAff then 1 else 0) else size0
  if maxAff < size1 then maxAff else size1

/-- Short-entry sizing (strategy.py lines 281-297): risk-based size, and if it
is 0 the size becomes 1 with no affordability guard and no cap at
`max_affordable`. -/
def shortEntrySize (p : StratParams) (atr value : ℚ) : ℤ :=
  let riskPerUnit := atr * p.atr_multiplier * (p.contract_multiplier : ℚ)
  let size0 := riskSize value p.risk_per_trade riskPerUnit
  if size0 = 0 then 1 else size0

/-- Trailing update of a Long stop (strategy.py lines 319-322):
`if self.stop_price and new_stop_price > self.stop_price` — note the Python
truthiness test, which also skips the update when `stop_price` equals 0. -/
def longStopUpdate (s newStop : ℚ) : ℚ :=
  if s ≠ 0 ∧ s < newStop then newStop else s

/-- Trailing update of a Short stop (strategy.py lines 344-347), mirrored. -/
def shortStopUpdate (s newStop : ℚ) : ℚ :=
  if s ≠ 0 ∧ newStop < s then newStop else s

/-- One call of `TrendFollowingStrategy.next` (strategy.py lines 207-352), as a
function of the pending-order flag (`self.order` is not None), the current
position size (`self.position.size`), the current `self.stop_price`, the
crossover indicator value at the bar, the bar's close, the ATR value at the
bar, and the broker's account value and available cash.  Returns the emitted
order intent and the new `stop_price`; the `Except` error is the `TypeError`
Python would raise on comparing the close against a `None` stop while a
position is open. -/
def nextStep (p : StratParams) (pending : Bool) (posSize : ℤ) (stop : Option ℚ)
    (cross : ℤ) (close atr value cash : ℚ) :
    Except String (OrderIntent × Option ℚ) :=
  if pending then .ok (.none, stop)
  else if posSize = 0 then
    if 0 < cross then
      -- 金叉买入: open Long; `self.stop_price` is set before the size is known
      let sz := longEntrySize p close atr value cash
      if 0 < sz then .ok (.buy sz, some (close - atr * p.atr_multiplier))
      else .ok (.none, some (close - atr * p.atr_multiplier))
    else if cross < 0 then
      -- 死叉卖空: open Short
      let sz := shortEntrySize p atr value
      if 0 < sz then .ok (.sell sz, some (close + atr * p.atr_multiplier))
      else .ok (.none, some (close + atr * p.atr_multiplier))
    else .ok (.none, stop)
  else if 0 < posSize then
    -- holding a Long
    if cross < 0 then .ok (.close, stop)
    else
      match stop with
      | Option.none => .error "TypeError: close < None"
      | some s =>
        let s1 := longStopUpdate s (close - atr * p.atr_multiplier)
        if close < s1 then .ok (.close, some s1) else .ok (.none, some s1)
  else
    -- holding a Short
    if 0 < cross then .ok (.close, stop)
    else
      match stop with
      | Option.none => .error "TypeError: close > None"
      | some s =>
        let s1 := shortStopUpdate s (close + atr * p.atr_multiplier)
        if s1 < close then .ok (.close, some s1) else .ok (.none, some s1)

/-- The Long stop after consecutive in-position trailing bars, each bar given
as a (close, atr) pair. -/
def trailLong (p : StratParams) (s : ℚ) (bars : List (ℚ × ℚ)) : ℚ :=
  bars.foldl (fun acc b => longStopUpdate acc (b.1 - b.2 * p.atr_multiplier)) s

/-- The Short stop after consecutive in-position trailing bars. -/
def trailShort (p : StratParams) (s : ℚ) (bars : List (ℚ × ℚ)) : ℚ :=
  bars.foldl (fun acc b => shortStopUpdate acc (b.1 + b.2 * p.atr_multiplier)) s

/-- The Long-entry size exactly as the specification words it (spec §4.3):
`size = floor(risk_amount/risk_per_unit) if risk_per_unit > 0 else 0`; if
`size = 0` and `max_affordable ≥ 1` then `size = 1`; finally
`size = min(size, max_affordable)`. -/
def specLongEntrySize (equity cash close atr atrMult riskPerTrade : ℚ)
    (mult : ℤ) : ℤ :=
  let stopDist := atr * atrMult
  let riskPerUnit := stopDist * (mult : ℚ)
  let size0 : ℤ := if 0 < riskPerUnit then ⌊(equity * riskPerTrade) / riskPerUnit⌋ else 0
  let ma := maxAffordable cash close mult
  let size1 := if size0 = 0 ∧ 1 ≤ ma then 1 else size0
  min size1 ma

/-- The Long-entry size as the amended claim words it: identical to
`specLongEntrySize` except that the risk-based size uses Python int()
truncation toward zero, as the code does, rather than floor; the two agree
whenever equity and risk_per_trade are nonnegative. -/
def specLongEntrySizeTrunc (equity cash close atr atrMult riskPerTrade : ℚ)
    (mult : ℤ) : ℤ :=
  let stopDist := atr * atrMult
  let riskPerUnit := stopDist * (mult : ℚ)
  let size0 : ℤ := if 0 < riskPerUnit then pyInt ((equity * riskPerTrade) / riskPerUnit) else 0
  let ma := maxAffordable cash close mult
  let size1 := if size0 = 0 ∧ 1 ≤ ma then 1 else size0
  min size1 ma

/-! ### Backtest engine: data precheck and result shape (engine.py) -/

/-- The metrics a successful backtest carries that the optimizer reads. -/
structure RunMetrics where
  final_value : ℚ
deriving Repr, DecidableEq

/-- Outcome of the post-precheck phase of `BacktestEngine.run` (running
cerebro and packaging the result, engine.py lines 112-212): either the caught
execution failure or a success dictionary. -/
inductive BtTail where
  | errExecution
  | success (m : RunMetrics)
deriving Repr, DecidableEq

/-- Outcome of `BacktestEngine.run`: the empty-data error (engine.py lines
34-35), the data-length error reporting the available and required lengths
(lines 38-40), the caught execution failure (lines 115-117), or success. -/
inductive RunOutcome where
  | errNoData
  | errTooShort (available : ℕ) (required : ℤ)
  | errExecution
  | success (m : RunMetrics)
deriving Repr, DecidableEq

/-- The control flow of `BacktestEngine.run` around its data prechecks
(engine.py lines 32-40): the empty-data check runs first, then the length
check against `strategy_params.get('slow_period', 30) + 5`; only when both
pass does the backtest proper (the abstract tail `bt`) run. -/
def runModel (dataLen : ℕ) (slowPeriod : Option ℤ) (bt : BtTail) : RunOutcome :=
  if dataLen = 0 then .errNoData
  else if (dataLen : ℤ) < slowPeriod.getD 30 + 5 then
    .errTooShort dataLen (slowPeriod.getD 30 + 5)
  else
    match bt with
    | .errExecution => .errExecution
    | .success m => .success m

/-- The caller's `strategy_params` dictionary as `BacktestEngine.run` sees it:
the keys run touches or reads, plus the remaining key/value pairs. -/
structure EngineParamsDict where
  slow_period : Option ℤ
  contract_multiplier : Option ℚ
  others : List (String × ℚ)
deriving Repr, DecidableEq

/-- The in-place effect of `BacktestEngine.run` on the caller's
`strategy_params` dictionary: when the data prechecks pass, run executes
`strategy_params['contract_multiplier'] = int(strategy_params['contract_multiplier'])`
(engine.py lines 72-73); nothing else in the dictionary is written. -/
def runParamsAfter (dataLen : ℕ) (p : EngineParamsDict) : EngineParamsDict :=
  if dataLen = 0 then p
  else if (dataLen : ℤ) < p.slow_period.getD 30 + 5 then p
  else { p with contract_multiplier := p.contract_multiplier.map (fun q => ((pyInt q : ℤ) : ℚ)) }

/-! ### Broker fill model -/

/-- Commission rate the engine configures on the broker:
`cerebro.broker.setcommission(commission=0.0001, mult=contract_multiplier)`
(engine.py line 103). -/
def engineCommissionRate : ℚ := 1 / 10000

/-- A broker fill: execution price, filled size, commission charged. -/
structure Fill where
  price : ℚ
  size : ℤ
  commission : ℚ
deriving Repr, DecidableEq

/-- Modelled from the spec: the Broker Simulator (spec §4.4) is the backtrader
broker, whose fill mechanics are not part of this repository's sources (the
sources only configure it, engine.py lines 96-103).  Per the spec, an order
intent is filled at the deciding bar's close for the resolved size, with
commission = notional × commission_rate where notional =
|size| × price × contract_multiplier, and a zero size produces no fill. -/
def brokerFill (close : ℚ) (size mult : ℤ) (rate : ℚ) : Option Fill :=
  if size = 0 then Option.none
  else some { price := close, size := size,
              commission := |(size : ℚ)| * close * (mult : ℚ) * rate }

/-! ### Parameter optimizer (optimizer.py) -/

/-- The parameter fields the optimizer may mutate
(`param_ranges`, optimizer.py lines 51-57). -/
inductive MutKey where
  | fast_period
  | slow_period
  | atr_period
  | atr_multiplier
  | risk_per_trade
deriving Repr, DecidableEq

/-- The mutable slice of a candidate parameter dictionary. -/
structure OptParams where
  fast_period : ℤ
  slow_period : ℤ
  atr_period : ℤ
  atr_multiplier : ℚ
  risk_per_trade : ℚ
deriving Repr, DecidableEq

/-- `list(range(5, 30, 2))` — the fast_period search range. -/
def fastPeriodRange : List ℤ := [5, 7, 9, 11, 13, 15, 17, 19, 21, 23, 25, 27, 29]

/-- `list(range(20, 100, 5))` — the slow_period search range. -/
def slowPeriodRange : List ℤ := [20, 25, 30, 35, 40, 45, 50, 55, 60, 65, 70, 75, 80, 85, 90, 95]

/-- `[10, 14, 20, 30]` — the atr_period search range. -/
def atrPeriodRange : List ℤ := [10, 14, 20, 30]

/-- `[1.0, 1.5, 2.0, 2.5, 3.0, 3.5, 4.0]` — the atr_multiplier search range. -/
def atrMultiplierRange : List ℚ := [1, 3/2, 2, 5/2, 3, 7/2, 4]

/-- `[0.01, 0.02, 0.03, 0.05]` — the risk_per_trade search range. -/
def riskPerTradeRange : List ℚ := [1/100, 1/50, 3/100, 1/20]

/-- One mutation `trial_params[key] = random.choice(param_ranges[key])`
(optimizer.py lines 68-70); the random choice is supplied as an index into
the key's range. -/
def applyMut (p : OptParams) (k : MutKey) (i : ℕ) : OptParams :=
  match k with
  | .fast_period => { p with fast_period := fastPeriodRange.getD (i % fastPeriodRange.length) 0 }
  | .slow_period => { p with slow_period := slowPeriodRange.getD (i % slowPeriodRange.length) 0 }
  | .atr_period => { p with atr_period := atrPeriodRange.getD (i % atrPeriodRange.length) 0 }
  | .atr_multiplier => { p with atr_multiplier := atrMultiplierRange.getD (i % atrMultiplierRange.length) 0 }
  | .risk_per_trade => { p with risk_per_trade := riskPerTradeRange.getD (i % riskPerTradeRange.length) 0 }

/-- All mutations of one trial applied to a clone of the base parameters. -/
def applyMuts (base : OptParams) (muts : List (MutKey × ℕ)) : OptParams :=
  muts.foldl (fun q km => applyMut q km.1 km.2) base

/-- The constraint repair (optimizer.py lines 73-75): if
`fast_period >= slow_period` then `slow_period = fast_period + 5`. -/
def repairPeriods (p : OptParams) : OptParams :=
  if p.slow_period ≤ p.fast_period then { p with slow_period := p.fast_period + 5 } else p

/-- One generated candidate (optimizer.py lines 63-75): clone the base
parameters, apply the sampled mutations, then repair the period constraint. -/
def genCandidate (base : OptParams) (muts : List (MutKey × ℕ)) : OptParams :=
  repairPeriods (applyMuts base muts)

/-- A Python value appearing as a component of a trial's argument tuple. -/
inductive PyVal where
  | str (s : String)
  | rat (q : ℚ)
  | params (p : OptParams)
  | noneVal
deriving Repr, DecidableEq

/-- The Python exceptions the optimizer's trial paths can raise. -/
inductive PyError where
  | valueError
  | typeError
deriving Repr, DecidableEq

/-- The 7-element tuple appended per trial (optimizer.py line 77):
`(symbol, period, trial_params, start_date, end_date, initial_cash, asset_type)`. -/
def trialTuple (symbol period : String) (p : OptParams) (startDate endDate : Option String)
    (cash : ℚ) (assetType : Option String) : List PyVal :=
  [.str symbol, .str period, .params p,
   (startDate.map PyVal.str).getD .noneVal,
   (endDate.map PyVal.str).getD .noneVal,
   .rat cash,
   (assetType.map PyVal.str).getD .noneVal]

/-- The tuple unpacking `_, _, params, _, _, _ = args` at optimizer.py line
109: six targets; any other tuple length raises `ValueError`. -/
def unpackSix (xs : List PyVal) :
    Except PyError (PyVal × PyVal × PyVal × PyVal × PyVal × PyVal) :=
  match xs with
  | [a, b, c, d, e, f] => .ok (a, b, c, d, e, f)
  | _ => .error .valueError

/-- The keyword parameters `BacktestEngine.run` accepts
(engine.py line 10): `run(self, symbol, period, strategy_params, start_date,
end_date, initial_cash, strategy_class)`. -/
def engineRunParamNames : List String :=
  ["symbol", "period", "strategy_params", "start_date", "end_date",
   "initial_cash", "strategy_class"]

/-- The keyword arguments `_run_backtest_wrapper` passes to
`engine.run(...)` (optimizer.py lines 15-23). -/
def wrapperCallKwargs : List String :=
  ["symbol", "period", "strategy_params", "start_date", "end_date",
   "initial_cash", "asset_type"]

/-- Python call binding: every keyword argument must name an accepted
parameter, else the call raises `TypeError`. -/
def kwargsAccepted (accepted passed : List String) : Bool :=
  passed.all (fun k => accepted.contains k)

/-- `_run_backtest_wrapper` (optimizer.py lines 8-35): bind the keyword
arguments of the `engine.run(...)` call — an unaccepted keyword raises
`TypeError` before run executes — then, given run's outcome, score an error
outcome as `(params, None, -inf)` and a success as the percentage return on
`initial_cash`.  The score is `⊥ : WithBot ℚ` for −∞. -/
def runBacktestWrapper (p : OptParams) (initialCash : ℚ) (outcome : RunOutcome) :
    Except PyError (OptParams × Option RunMetrics × WithBot ℚ) :=
  if kwargsAccepted engineRunParamNames wrapperCallKwargs then
    match outcome with
    | .success m =>
        .ok (p, some m, (((m.final_value - initialCash) / initialCash) * 100 : ℚ))
    | _ => .ok (p, Option.none, (⊥ : WithBot ℚ))
  else .error .typeError

/-- The sequential branch of `StrategyOptimizer.optimize`
(optimizer.py lines 104-128), reduced to what each iteration does before a
backtest can run: unpack the 7-tuple into six targets, then bind the
`engine.run(symbol, period, params, start_date, end_date, initial_cash,
asset_type=asset_type)` call (line 111), whose `asset_type` keyword
`BacktestEngine.run` does not accept.  Returns the number of `engine.run`
calls performed, or the first uncaught exception paired with how many
candidates had been run when it was raised. -/
def seqTrialsRun : List (List PyVal) → ℕ → Except (PyError × ℕ) ℕ
  | [], n => .ok n
  | args :: rest, n =>
    match unpackSix args with
    | .error e => .error (e, n)
    | .ok _ =>
        if kwargsAccepted engineRunParamNames ["asset_type"] then
          seqTrialsRun rest (n + 1)
        else .error (.typeError, n)

/-! ### Helper lemmas -/

theorem pyInt_eq_floor (q : ℚ) (h : 0 ≤ q) : pyInt q = ⌊q⌋ := by
  simp [pyInt, h]

theorem pyInt_intCast (n : ℤ) : pyInt (n : ℚ) = n := by
  unfold pyInt
  split
  · exact Int.floor_intCast n
  · rw [show (-(n : ℚ)) = ((-n : ℤ) : ℚ) by push_cast; ring, Int.floor_intCast]
    ring

theorem le_longStopUpdate (s c : ℚ) : s ≤ longStopUpdate s c := by
  unfold longStopUpdate
  split_ifs with h
  · exact h.2.le
  · exact le_rfl

theorem shortStopUpdate_le (s c : ℚ) : shortStopUpdate s c ≤ s := by
  unfold shortStopUpdate
  split_ifs with h
  · exact h.2.le
  · exact le_rfl

theorem longStopUpdate_eq_max (s c : ℚ) (h : s ≠ 0) : longStopUpdate s c = max s c := by
  unfold longStopUpdate
  rcases lt_or_le s c with hlt | hle
  · rw [if_pos ⟨h, hlt⟩, max_eq_right hlt.le]
  · rw [if_neg (by rintro ⟨-, hlt⟩; exact absurd hlt (not_lt.mpr hle)), max_eq_left hle]

theorem shortStopUpdate_eq_min (s c : ℚ) (h : s ≠ 0) : shortStopUpdate s c = min s c := by
  unfold shortStopUpdate
  rcases lt_or_le c s with hlt | hle
  · rw [if_pos ⟨h, hlt⟩, min_eq_right hlt.le]
  · rw [if_neg (by rintro ⟨-, hlt⟩; exact absurd hlt (not_lt.mpr hle)), min_eq_left hle]

theorem le_trailLong (p : StratParams) (bars : List (ℚ × ℚ)) (s : ℚ) :
    s ≤ trailLong p s bars := by
  induction bars generalizing s with
  | nil => exact le_rfl
  | cons b bs ih =>
      exact le_trans (le_longStopUpdate s (b.1 - b.2 * p.atr_multiplier)) (ih _)

theorem trailShort_le (p : StratParams) (bars : List (ℚ × ℚ)) (s : ℚ) :
    trailShort p s bars ≤ s := by
  induction bars generalizing s with
  | nil => exact le_rfl
  | cons b bs ih =>
      exact le_trans (ih _) (shortStopUpdate_le s (b.1 + b.2 * p.atr_multiplier))

/-! ### Claim theorems -/

/-- C1 (amended): for every run with a nonempty bar series whose length is
strictly below slow_period + 5, `BacktestEngine.run` returns the
data-too-short error reporting the available and the required length
(slow_period + 5) and performs no backtest (the outcome does not depend on the
post-check phase); when the length is at least slow_period + 5, that error is
never returned.  (An empty series is intercepted earlier by a distinct
no-data error, which is the correction to the claim.) -/
theorem C1_insufficient_data_precheck (dataLen : ℕ) (slow : ℤ) (bt : BtTail) :
    (1 ≤ dataLen → (dataLen : ℤ) < slow + 5 →
      runModel dataLen (some slow) bt = .errTooShort dataLen (slow + 5) ∧
      ∀ bt2, runModel dataLen (some slow) bt = runModel dataLen (some slow) bt2) ∧
    (slow + 5 ≤ (dataLen : ℤ) →
      ∀ a r, runModel dataLen (some slow) bt ≠ .errTooShort a r) := by
  constructor
  · intro h0 hlt
    have hne : dataLen ≠ 0 := by omega
    constructor
    · simp [runModel, hne, hlt]
    · intro bt2
      simp [runModel, hne, hlt]
  · intro hge a r
    by_cases hne : dataLen = 0
    · subst hne
      simp [runModel]
    · have hnlt : ¬ (dataLen : ℤ) < slow + 5 := by omega
      cases bt with
      | errExecution => simp [runModel, hne, hnlt]
      | success m => simp [runModel, hne, hnlt]

/-- Witness for C1_insufficient_data_precheck at slow_period = 30: a 34-bar
series yields the too-short error with required = 35 and available = 34, and a
35-bar series never yields it. -/
theorem C1_insufficient_data_precheck_witness :
    runModel 34 (some 30) BtTail.errExecution = RunOutcome.errTooShort 34 35 ∧
    runModel 35 (some 30) BtTail.errExecution ≠ RunOutcome.errTooShort 35 35 := by
  constructor
  · exact ((C1_insufficient_data_precheck 34 30 BtTail.errExecution).1
      (by norm_num) (by norm_num)).1
  · exact (C1_insufficient_data_precheck 35 30 BtTail.errExecution).2
      (by norm_num) 35 35

/-- C1 counterexample: on an empty series (length 0, which is strictly below
slow_period + 5 = 35) run returns the distinct no-data error, not an
InsufficientData-style error reporting required = 35 and available = 0. -/
theorem C1_counterexample :
    runModel 0 (some 30) (BtTail.success ⟨1000000⟩) = RunOutcome.errNoData ∧
    runModel 0 (some 30) (BtTail.success ⟨1000000⟩) ≠ RunOutcome.errTooShort 0 35 := by
  constructor
  · rfl
  · intro h
    exact RunOutcome.noConfusion h

/-- C3: when the position is flat, the crossover is −1 and the risk-based size
computes to 0, the strategy opens a Short of size 1 unconditionally — no
affordability guard and no max-affordable clamp are applied (unlike the Long
entry); concretely, with close = 100, ATR = 0 and cash = 50, a short of
size 1 is opened although `max_affordable` is 0. -/
theorem C3_short_entry_unclamped :
    (∀ (p : StratParams) (stop : Option ℚ) (cross : ℤ) (close atr value cash : ℚ),
      cross < 0 →
      riskSize value p.risk_per_trade (atr * p.atr_multiplier * (p.contract_multiplier : ℚ)) = 0 →
      nextStep p false 0 stop cross close atr value cash =
        .ok (.sell 1, some (close + atr * p.atr_multiplier))) ∧
    (nextStep ⟨10, 30, 14, 2, 1/50, 1, false⟩ false 0 Option.none (-1) 100 0 100 50 =
        .ok (.sell 1, some 100) ∧
      maxAffordable 50 100 1 = 0) := by
  constructor
  · intro p stop cross close atr value cash hc hrs
    have hnc : ¬ (0 : ℤ) < cross := by omega
    simp [nextStep, hc, hnc, shortEntrySize, hrs]
  · constructor
    · norm_num [nextStep, shortEntrySize, riskSize]
    · norm_num [maxAffordable, pyInt]

/-- Witness for C3_short_entry_unclamped: with close = 100, ATR = 1,
equity = 50 and risk_per_trade = 1/50, the risk-based size is 0 and a short of
size 1 is opened with stop at 102. -/
theorem C3_short_entry_unclamped_witness :
    nextStep ⟨10, 30, 14, 2, 1/50, 1, false⟩ false 0 Option.none (-1) 100 1 50 0 =
      .ok (.sell 1, some 102) := by
  have h := C3_short_entry_unclamped.1 ⟨10, 30, 14, 2, 1/50, 1, false⟩ Option.none
    (-1) 100 1 50 0 (by norm_num) (by norm_num [riskSize, pyInt])
  rw [h]
  norm_num

/-- C10: when a Long position is held and the crossover is −1, the decision is
the signal-exit close, taken before any stop logic: the result does not depend
on the relation between the close and the stop price, and the stop price is
not updated on that bar. -/
theorem C10_signal_exit_before_stop (p : StratParams) (posSize : ℤ) (stop : Option ℚ)
    (cross : ℤ) (close atr value cash : ℚ)
    (hpos : 0 < posSize) (hcross : cross < 0) :
    nextStep p false posSize stop cross close atr value cash = .ok (.close, stop) := by
  have h0 : ¬ posSize = 0 := by omega
  simp [nextStep, h0, hpos, hcross]

/-- Witness for C10_signal_exit_before_stop: a death cross while long at
close = 3, with the stop at 5 (so the stop condition close < stop also
holds), still produces the signal exit with the stop untouched. -/
theorem C10_signal_exit_before_stop_witness :
    nextStep ⟨10, 30, 14, 2, 1/50, 1, false⟩ false 10 (some 5) (-1) 3 1 100 100 =
      .ok (.close, some 5) :=
  C10_signal_exit_before_stop ⟨10, 30, 14, 2, 1/50, 1, false⟩ 10 (some 5) (-1) 3 1 100 100
    (by norm_num) (by norm_num)

/-- C6 (code evaluated at the failing input): each trial argument tuple has
seven elements, so the sequential branch's unpacking into six targets
(`_, _, params, _, _, _ = args`) raises ValueError on the very first
candidate, before any backtest has run — sequential mode executes no
candidate at all. -/
theorem C6_sequential_unpack_valueerror (symbol period : String) (p : OptParams)
    (startDate endDate : Option String) (cash : ℚ) (assetType : Option String)
    (rest : List (List PyVal)) :
    (trialTuple symbol period p startDate endDate cash assetType).length = 7 ∧
    seqTrialsRun (trialTuple symbol period p startDate endDate cash assetType :: rest) 0 =
      .error (.valueError, 0) := by
  exact ⟨rfl, rfl⟩

/-- C7 (code evaluated at the failing input): `_run_backtest_wrapper` passes
the keyword argument `asset_type`, which `BacktestEngine.run` does not accept,
so every trial raises TypeError before the backtest runs; in particular a
trial whose backtest would fail is never scored −∞ — the wrapper raises
instead (shown both for an error outcome and for a success outcome). -/
theorem C7_wrapper_raises_typeerror :
    kwargsAccepted engineRunParamNames wrapperCallKwargs = false ∧
    runBacktestWrapper ⟨10, 30, 14, 2, 1/50⟩ 1000000 (RunOutcome.errTooShort 20 35) =
      .error .typeError ∧
    runBacktestWrapper ⟨10, 30, 14, 2, 1/50⟩ 1000000 (RunOutcome.success ⟨1200000⟩) =
      .error .typeError := by
  exact ⟨rfl, rfl, rfl⟩

/-- C8: every candidate the optimizer generates — the base parameters with any
sampled mutations applied, each mutated value drawn from its fixed range —
goes through the period repair, so the executed candidate always satisfies
fast_period < slow_period, and it differs from the mutated clone only when the
constraint was violated, in which case slow_period becomes fast_period + 5. -/
theorem C8_candidate_repair (base : OptParams) (muts : List (MutKey × ℕ)) :
    (genCandidate base muts).fast_period < (genCandidate base muts).slow_period ∧
    genCandidate base muts =
      (if (applyMuts base muts).fast_period < (applyMuts base muts).slow_period
       then applyMuts base muts
       else { applyMuts base muts with slow_period := (applyMuts base muts).fast_period + 5 }) := by
  rcases hm : applyMuts base muts with ⟨f, sl, ap, am, rp⟩
  unfold genCandidate repairPeriods
  rw [hm]
  by_cases h : sl ≤ f
  · rw [if_pos h, if_neg (show ¬ (f < sl) by omega)]
    refine ⟨?_, rfl⟩
    dsimp only
    omega
  · rw [if_neg h, if_pos (show f < sl by omega)]
    refine ⟨?_, rfl⟩
    dsimp only
    omega

theorem nextStep_entry_size_pos (p : StratParams) (pending : Bool) (posSize : ℤ)
    (stop st : Option ℚ) (cross : ℤ) (close atr value cash : ℚ) (sz : ℤ) :
    (nextStep p pending posSize stop cross close atr value cash = .ok (.buy sz, st) → 0 < sz) ∧
    (nextStep p pending posSize stop cross close atr value cash = .ok (.sell sz, st) → 0 < sz) := by
  cases stop <;>
    · constructor <;>
        · intro h
          simp only [nextStep] at h
          split_ifs at h <;> simp_all

theorem nextStep_close_posSize_ne_zero (p : StratParams) (pending : Bool) (posSize : ℤ)
    (stop st : Option ℚ) (cross : ℤ) (close atr value cash : ℚ) :
    nextStep p pending posSize stop cross close atr value cash = .ok (.close, st) →
    posSize ≠ 0 := by
  intro h
  cases stop <;>
    · simp only [nextStep] at h
      split_ifs at h <;> simp_all

/-- C2 (broker modelled from the spec): every order intent the strategy emits
on a bar is filled at that same bar's close for the resolved size, with
commission equal to notional × commission_rate (notional =
|size| × close × contract_multiplier): buys and sells for their explicit
size, a close exit for the size offsetting the open position (which the
emission guarantees is nonzero), and a zero size produces no fill. -/
theorem C2_fill_at_deciding_close (p : StratParams) (pending : Bool) (posSize : ℤ)
    (stop st : Option ℚ) (cross : ℤ) (close atr value cash : ℚ) (sz : ℤ) :
    (nextStep p pending posSize stop cross close atr value cash = .ok (.buy sz, st) →
      brokerFill close sz p.contract_multiplier engineCommissionRate =
        some ⟨close, sz, |(sz : ℚ)| * close * (p.contract_multiplier : ℚ) * engineCommissionRate⟩) ∧
    (nextStep p pending posSize stop cross close atr value cash = .ok (.sell sz, st) →
      brokerFill close sz p.contract_multiplier engineCommissionRate =
        some ⟨close, sz, |(sz : ℚ)| * close * (p.contract_multiplier : ℚ) * engineCommissionRate⟩) ∧
    (nextStep p pending posSize stop cross close atr value cash = .ok (.close, st) →
      posSize ≠ 0 ∧
      brokerFill close (-posSize) p.contract_multiplier engineCommissionRate =
        some ⟨close, -posSize,
          |((-posSize : ℤ) : ℚ)| * close * (p.contract_multiplier : ℚ) * engineCommissionRate⟩) ∧
    brokerFill close 0 p.contract_multiplier engineCommissionRate = Option.none := by
  refine ⟨fun h => ?_, fun h => ?_, fun h => ?_, rfl⟩
  · have hpos := (nextStep_entry_size_pos p pending posSize stop st cross close atr value cash sz).1 h
    unfold brokerFill
    rw [if_neg (by omega)]
  · have hpos := (nextStep_entry_size_pos p pending posSize stop st cross close atr value cash sz).2 h
    unfold brokerFill
    rw [if_neg (by omega)]
  · have hne := nextStep_close_posSize_ne_zero p pending posSize stop st cross close atr value cash h
    refine ⟨hne, ?_⟩
    unfold brokerFill
    rw [if_neg (by omega)]

/-- Witness for C2_fill_at_deciding_close: the golden-cross entry at
close = 10 buys 10000 units and is filled at 10 with commission
10000 × 10 × 1 × 0.0001 = 10; the signal exit of a 10-unit long at close = 3
is filled at 3 for the offsetting size −10 with commission
10 × 3 × 1 × 0.0001 = 0.003. -/
theorem C2_fill_at_deciding_close_witness :
    brokerFill 10 10000 1 engineCommissionRate = some ⟨10, 10000, 10⟩ ∧
    brokerFill 3 (-10) 1 engineCommissionRate = some ⟨3, -10, 3/1000⟩ := by
  constructor
  · have hstep : nextStep ⟨10, 30, 14, 2, 1/50, 1, false⟩ false 0 Option.none 1 10 1 1000000 1000000
        = .ok (.buy 10000, some 8) := by
      norm_num [nextStep, longEntrySize, riskSize, maxAffordable, pyInt]
    have h := (C2_fill_at_deciding_close ⟨10, 30, 14, 2, 1/50, 1, false⟩ false 0 Option.none
      (some 8) 1 10 1 1000000 1000000 10000).1 hstep
    rw [h]
    norm_num [engineCommissionRate]
  · have hstep : nextStep ⟨10, 30, 14, 2, 1/50, 1, false⟩ false 10 (some 5) (-1) 3 1 100 100
        = .ok (.close, some 5) := by
      norm_num [nextStep]
    have h := ((C2_fill_at_deciding_close ⟨10, 30, 14, 2, 1/50, 1, false⟩ false 10 (some 5)
      (some 5) (-1) 3 1 100 100 0).2.2.1 hstep).2
    rw [h]
    norm_num [engineCommissionRate]

/-- C4 (amended): on a flat position with crossover +1, the emitted size is
the claimed formula with Python int() truncation toward zero in place of
floor — size = int(risk_amount / risk_per_unit) if risk_per_unit > 0 else 0,
the minimum-one fallback only when max_affordable ≥ 1, then the cap
min(size, max_affordable) — which coincides with the floor-based formula
whenever equity and risk_per_trade are nonnegative; the stop is set to
close − ATR × atr_multiplier, and a final size that is 0 (or negative) places
no order and raises no error. -/
theorem C4_long_entry_sizing (p : StratParams) (stop : Option ℚ) (cross : ℤ)
    (close atr value cash : ℚ) (hcross : 0 < cross) :
    longEntrySize p close atr value cash =
      specLongEntrySizeTrunc value cash close atr p.atr_multiplier p.risk_per_trade
        p.contract_multiplier ∧
    (0 ≤ value → 0 ≤ p.risk_per_trade →
      specLongEntrySizeTrunc value cash close atr p.atr_multiplier p.risk_per_trade
          p.contract_multiplier =
        specLongEntrySize value cash close atr p.atr_multiplier p.risk_per_trade
          p.contract_multiplier) ∧
    nextStep p false 0 stop cross close atr value cash =
      .ok ((if 0 < longEntrySize p close atr value cash
            then OrderIntent.buy (longEntrySize p close atr value cash)
            else OrderIntent.none),
           some (close - atr * p.atr_multiplier)) := by
  refine ⟨?_, ?_, ?_⟩
  · simp only [longEntrySize, specLongEntrySizeTrunc, riskSize]
    generalize (if 0 < atr * p.atr_multiplier * (p.contract_multiplier : ℚ) then
        pyInt ((value * p.risk_per_trade) / (atr * p.atr_multiplier * (p.contract_multiplier : ℚ)))
      else 0) = s0
    generalize maxAffordable cash close p.contract_multiplier = ma
    simp only [min_def]
    split_ifs <;> omega
  · intro hval hrisk
    simp only [specLongEntrySizeTrunc, specLongEntrySize]
    by_cases hpu : 0 < atr * p.atr_multiplier * (p.contract_multiplier : ℚ)
    · rw [pyInt_eq_floor _ (div_nonneg (mul_nonneg hval hrisk) hpu.le)]
    · simp only [hpu, if_false]
  · simp only [nextStep, Bool.false_eq_true, if_false, if_pos rfl, hcross, if_true]
    split_ifs with h <;> rfl

/-- Witness for C4_long_entry_sizing: equity 1000000, risk 2%, ATR 1,
multiplier 2, close 10 gives int(20000/2) = 10000 ≤ max_affordable, so the
strategy buys 10000 with stop 8, and on this nonnegative-equity input the
truncation-based formula agrees with the floor-based one. -/
theorem C4_long_entry_sizing_witness :
    nextStep ⟨10, 30, 14, 2, 1/50, 1, false⟩ false 0 Option.none 1 10 1 1000000 1000000 =
      .ok (.buy 10000, some 8) ∧
    specLongEntrySizeTrunc 1000000 1000000 10 1 2 (1/50) 1 = 10000 ∧
    specLongEntrySizeTrunc 1000000 1000000 10 1 2 (1/50) 1 =
      specLongEntrySize 1000000 1000000 10 1 2 (1/50) 1 := by
  have hspec : specLongEntrySizeTrunc 1000000 1000000 10 1 2 (1/50) 1 = 10000 := by
    norm_num [specLongEntrySizeTrunc, maxAffordable, pyInt]
  have h := C4_long_entry_sizing ⟨10, 30, 14, 2, 1/50, 1, false⟩ Option.none 1
    10 1 1000000 1000000 (by norm_num)
  refine ⟨?_, hspec, h.2.1 (by norm_num) (by norm_num)⟩
  rw [h.2.2, h.1, hspec]
  norm_num

/-- C4 counterexample: at equity −50 (risk_per_trade 1/50, ATR 1,
atr_multiplier 2, contract_multiplier 1, close 10, cash 100) the code computes
int(−1/2) = 0, the minimum-one fallback fires (max_affordable = 10 ≥ 1) and a
buy of size 1 is emitted, while the claimed floor-based formula gives
floor(−1/2) = −1 and min(−1, 10) = −1, i.e. no trade — so the claim's size
formula does not describe the code on negative equity. -/
theorem C4_counterexample :
    longEntrySize ⟨10, 30, 14, 2, 1/50, 1, false⟩ 10 1 (-50) 100 = 1 ∧
    specLongEntrySize (-50) 100 10 1 2 (1/50) 1 = -1 ∧
    nextStep ⟨10, 30, 14, 2, 1/50, 1, false⟩ false 0 Option.none 1 10 1 (-50) 100 =
      .ok (.buy 1, some 8) ∧
    (1 : ℤ) ≠ -1 := by
  refine ⟨?_, ?_, ?_, by decide⟩
  · norm_num [longEntrySize, riskSize, maxAffordable, pyInt]
  · norm_num [specLongEntrySize, maxAffordable, pyInt]
  · norm_num [nextStep, longEntrySize, riskSize, maxAffordable, pyInt]

/-- C5 (amended): while a position is open, a Long's stop is non-decreasing
and a Short's non-increasing across consecutive bars; the per-bar update is
max(stop, close − ATR × atr_multiplier) for Longs and
min(stop, close + ATR × atr_multiplier) for Shorts whenever the current stop
is nonzero — a stop equal to 0 is left unchanged by the Python truthiness
guard `if self.stop_price` — and the position closes with a stop exit exactly
when the close is below (Long) or above (Short) the updated stop. -/
theorem C5_trailing_stop_monotone (p : StratParams) (posSize : ℤ) (s : ℚ)
    (cross : ℤ) (close atr value cash : ℚ) :
    (0 < posSize → ¬ cross < 0 →
      s ≤ longStopUpdate s (close - atr * p.atr_multiplier) ∧
      (s ≠ 0 → longStopUpdate s (close - atr * p.atr_multiplier)
          = max s (close - atr * p.atr_multiplier)) ∧
      nextStep p false posSize (some s) cross close atr value cash =
        .ok ((if close < longStopUpdate s (close - atr * p.atr_multiplier)
              then OrderIntent.close else OrderIntent.none),
             some (longStopUpdate s (close - atr * p.atr_multiplier)))) ∧
    (posSize < 0 → ¬ 0 < cross →
      shortStopUpdate s (close + atr * p.atr_multiplier) ≤ s ∧
      (s ≠ 0 → shortStopUpdate s (close + atr * p.atr_multiplier)
          = min s (close + atr * p.atr_multiplier)) ∧
      nextStep p false posSize (some s) cross close atr value cash =
        .ok ((if shortStopUpdate s (close + atr * p.atr_multiplier) < close
              then OrderIntent.close else OrderIntent.none),
             some (shortStopUpdate s (close + atr * p.atr_multiplier)))) ∧
    (∀ bars : List (ℚ × ℚ), s ≤ trailLong p s bars ∧ trailShort p s bars ≤ s) := by
  refine ⟨fun hpos hnc => ⟨le_longStopUpdate _ _, fun h0 => longStopUpdate_eq_max _ _ h0, ?_⟩,
          fun hneg hnpc => ⟨shortStopUpdate_le _ _, fun h0 => shortStopUpdate_eq_min _ _ h0, ?_⟩,
          fun bars => ⟨le_trailLong p bars s, trailShort_le p bars s⟩⟩
  · have h0 : ¬ posSize = 0 := by omega
    simp only [nextStep, Bool.false_eq_true, if_false, h0, hpos, if_true, hnc]
    split_ifs with h <;> rfl
  · have h0 : ¬ posSize = 0 := by omega
    have hnp : ¬ 0 < posSize := by omega
    simp only [nextStep, Bool.false_eq_true, if_false, h0, hnp, hnpc, if_true]
    split_ifs with h <;> rfl

/-- Witness for C5_trailing_stop_monotone: a Long at stop 5 on a bar with
close 3 and ATR 1 keeps its stop (candidate 1 would loosen it) and exits on
the stop since 3 < 5. -/
theorem C5_trailing_stop_monotone_witness :
    (5 : ℚ) ≤ longStopUpdate 5 (3 - 1 * 2) ∧
    nextStep ⟨10, 30, 14, 2, 1/50, 1, false⟩ false 1 (some 5) 0 3 1 100 100 =
      .ok (.close, some 5) := by
  have h := (C5_trailing_stop_monotone ⟨10, 30, 14, 2, 1/50, 1, false⟩ 1 5 0 3 1 100 100).1
    (by norm_num) (by norm_num)
  constructor
  · exact h.1
  · rw [h.2.2]
    norm_num [longStopUpdate]

/-- C5 counterexample: entering Long at close 10 with ATR 5 and
atr_multiplier 2 sets the stop to exactly 0; on the following bar
(close 12, ATR 1) the claimed update max(stop, close − ATR × mult) = 10 is
not applied — the truthiness guard leaves the stop at 0. -/
theorem C5_counterexample :
    nextStep ⟨10, 30, 14, 2, 1/100, 1, false⟩ false 0 Option.none 1 10 5 1000000 1000000 =
      .ok (.buy 1000, some 0) ∧
    nextStep ⟨10, 30, 14, 2, 1/100, 1, false⟩ false 1000 (some 0) 0 12 1 1000000 990000 =
      .ok (.none, some 0) ∧
    max (0 : ℚ) (12 - 1 * 2) ≠ 0 := by
  refine ⟨?_, ?_, by norm_num⟩
  · norm_num [nextStep, longEntrySize, riskSize, maxAffordable, pyInt]
  · norm_num [nextStep, longStopUpdate]

/-- C9 counterexample: with 100 bars of data and
strategy_params = {slow_period: 30, contract_multiplier: 2.5}, run rewrites
the caller's dictionary in place: contract_multiplier becomes int(2.5) = 2,
which differs from the value the caller passed. -/
theorem C9_counterexample :
    runParamsAfter 100 ⟨some 30, some (5/2), []⟩ = ⟨some 30, some 2, []⟩ ∧
    (5/2 : ℚ) ≠ 2 := by
  constructor
  · norm_num [runParamsAfter, pyInt]
  · norm_num

/-- C9 (amended): run leaves every entry of the caller's strategy_params
unchanged except contract_multiplier, which — once the data prechecks pass —
is truncated in place to a Python int; when the stored multiplier is already
an integer the dictionary is unchanged. -/
theorem C9_run_param_effect (dataLen : ℕ) (p : EngineParamsDict) :
    (runParamsAfter dataLen p).slow_period = p.slow_period ∧
    (runParamsAfter dataLen p).others = p.others ∧
    (∀ n : ℤ, p.contract_multiplier = some (n : ℚ) → runParamsAfter dataLen p = p) ∧
    (dataLen ≠ 0 → p.slow_period.getD 30 + 5 ≤ (dataLen : ℤ) →
      (runParamsAfter dataLen p).contract_multiplier =
        p.contract_multiplier.map fun q => ((pyInt q : ℤ) : ℚ)) := by
  rcases p with ⟨sl, cm, po⟩
  unfold runParamsAfter
  dsimp only
  refine ⟨?_, ?_, ?_, ?_⟩
  · split_ifs <;> rfl
  · split_ifs <;> rfl
  · intro n hn
    split_ifs <;> try rfl
    rw [hn]
    simp [pyInt_intCast]
  · intro hne hge
    split_ifs with h1 h2
    · exact absurd h1 hne
    · omega
    · rfl

/-- Witness for C9_run_param_effect: with 40 bars and contract_multiplier
3.5, after run the dictionary holds int(3.5) = 3 and the rest is unchanged. -/
theorem C9_run_param_effect_witness :
    (runParamsAfter 40 ⟨some 30, some (7/2), []⟩).contract_multiplier = some 3 ∧
    (runParamsAfter 40 ⟨some 30, some (7/2), []⟩).others = [] := by
  constructor
  · rw [(C9_run_param_effect 40 ⟨some 30, some (7/2), []⟩).2.2.2 (by decide) (by decide)]
    norm_num [pyInt]
  · exact (C9_run_param_effect 40 ⟨some 30, some (7/2), []⟩).2.1

end AiQuant
